import Mathlib

/-
Shallow embedding of the deterministic financial-scoring core of the
repository (src/financial_agents.py, src/azure_openai_client.py,
src/Models.py).  Python floats are modelled as exact rationals, Python
dicts as association lists (unique keys where the claim needs it), and
fallible operations (division) as an `Except` computation mirroring the
source's control flow.
-/

namespace FinPlan

/-- Round a rational to the nearest integer with ties going to the even
integer; this is the rounding used by Python's builtin round on exact
values. -/
def roundHalfEven (x : ℚ) : ℤ :=
  let n := Int.floor x
  let frac := x - n
  if frac < 1/2 then n
  else if 1/2 < frac then n + 1
  else if n % 2 = 0 then n else n + 1

/-- Python round(x, d) on exact rationals: scale by 10^d, round half to
even, scale back. -/
def pyRound (x : ℚ) (d : ℕ) : ℚ := (roundHalfEven (x * 10 ^ d) : ℚ) / 10 ^ d

/-- An investment-goal dict; the analyzer reads only the keys goal_type
and timeline, each possibly absent (Python dict .get). -/
structure Goal where
  goal_type : Option String
  timeline : Option ℚ
  deriving Repr, DecidableEq

/-- The profile_data dict passed to FinancialProfileAnalyzer.analyze.
Every key may be absent; the source reads each with .get and an explicit
default. monthly_expenses is a dict label -> amount, modelled as an
association list. -/
structure ProfileData where
  annual_income : Option ℚ := none
  monthly_expenses : Option (List (String × ℚ)) := none
  current_debt : Option ℚ := none
  current_savings : Option ℚ := none
  age : Option ℤ := none
  dependents : Option ℤ := none
  employment_stability : Option String := none
  investment_goals : Option (List Goal) := none
  deriving Repr, DecidableEq

namespace FinancialProfileAnalyzer

/-- profile_data.get('monthly_expenses', \x7b\x7d). -/
def monthlyExpensesOf (pd : ProfileData) : List (String × ℚ) :=
  pd.monthly_expenses.getD []

/-- profile_data.get('annual_income', 0). -/
def annualIncome (pd : ProfileData) : ℚ := pd.annual_income.getD 0

/-- monthly_income = annual_income / 12 (financial_agents.py line 32). -/
def monthlyIncome (pd : ProfileData) : ℚ := annualIncome pd / 12

/-- sum of the values of an expense dict. -/
def totalExpenses (expenses : List (String × ℚ)) : ℚ := (expenses.map Prod.snd).sum

/-- total_monthly_expenses = sum(profile_data.get('monthly_expenses', \x7b\x7d).values()). -/
def totalMonthlyExpenses (pd : ProfileData) : ℚ := totalExpenses (monthlyExpensesOf pd)

/-- savings_rate = (monthly_income - total_monthly_expenses) / monthly_income
if monthly_income > 0 else 0 (line 34). -/
def savingsRate (pd : ProfileData) : ℚ :=
  if monthlyIncome pd > 0 then (monthlyIncome pd - totalMonthlyExpenses pd) / monthlyIncome pd
  else 0

/-- monthly_debt = profile_data.get('current_debt', 0) / 12 (line 37). -/
def monthlyDebt (pd : ProfileData) : ℚ := pd.current_debt.getD 0 / 12

/-- debt_to_income = monthly_debt / monthly_income if monthly_income > 0 else 0 (line 38). -/
def debtToIncome (pd : ProfileData) : ℚ :=
  if monthlyIncome pd > 0 then monthlyDebt pd / monthlyIncome pd else 0

/-- emergency_fund_months = current_savings / total_monthly_expenses
if total_monthly_expenses > 0 else 0 (line 42). -/
def emergencyFundMonths (pd : ProfileData) : ℚ :=
  if totalMonthlyExpenses pd > 0 then pd.current_savings.getD 0 / totalMonthlyExpenses pd
  else 0

/-- Savings-rate tier of _calculate_financial_health_score (lines 71-78),
worth up to 40 points. -/
def savingsRateComponent (savings_rate : ℚ) : ℕ :=
  if savings_rate ≥ 20/100 then 40
  else if savings_rate ≥ 15/100 then 30
  else if savings_rate ≥ 10/100 then 20
  else if savings_rate ≥ 5/100 then 10
  else 0

/-- Debt-to-income tier of _calculate_financial_health_score (lines 81-86),
worth up to 30 points. -/
def debtComponent (debt_to_income : ℚ) : ℕ :=
  if debt_to_income ≤ 10/100 then 30
  else if debt_to_income ≤ 20/100 then 20
  else if debt_to_income ≤ 30/100 then 10
  else 0

/-- Emergency-fund tier of _calculate_financial_health_score (lines 89-94),
worth up to 30 points. -/
def emergencyComponent (emergency_months : ℚ) : ℕ :=
  if emergency_months ≥ 6 then 30
  else if emergency_months ≥ 3 then 20
  else if emergency_months ≥ 1 then 10
  else 0

/-- _calculate_financial_health_score: the three tier scores summed and
clamped with min(score, 100) (line 96). -/
def calculateFinancialHealthScore (savings_rate debt_to_income emergency_months : ℚ) : ℕ :=
  min (savingsRateComponent savings_rate + debtComponent debt_to_income +
    emergencyComponent emergency_months) 100

/-- employment_factors.get(employment, 0.8) with the dict of line 109. -/
def employmentFactor (employment : String) : ℚ :=
  (([("stable", (1 : ℚ)), ("moderate", 8/10), ("unstable", 5/10)]).lookup employment).getD (8/10)

/-- _calculate_risk_capacity (lines 98-118): weighted sum of age,
dependents, employment and savings factors, clamped by min(1.0, max(0.1, rc)). -/
def calculateRiskCapacity (age dependents : ℤ) (employment : String) (savings_rate : ℚ) : ℚ :=
  let age_factor : ℚ := max 0 ((65 - (age : ℚ)) / 40)
  let dependents_factor : ℚ := max 0 (1 - (dependents : ℚ) * (15/100))
  let employment_factor : ℚ := employmentFactor employment
  let savings_factor : ℚ := min 1 (savings_rate * 2)
  let risk_capacity := age_factor * (3/10) + dependents_factor * (2/10) +
    employment_factor * (3/10) + savings_factor * (2/10)
  min 1 (max (1/10) risk_capacity)

/-- Essential expense labels (line 127). -/
def essentialLabels : List String :=
  ["housing", "utilities", "groceries", "insurance", "transportation"]

/-- Lifestyle expense labels (line 128). -/
def lifestyleLabels : List String :=
  ["dining", "entertainment", "shopping", "subscriptions"]

/-- Financial expense labels (line 129). -/
def financialLabels : List String :=
  ["debt_payments", "savings", "investments"]

/-- expenses.get(label, 0). -/
def lookupExpense (expenses : List (String × ℚ)) (label : String) : ℚ :=
  (expenses.lookup label).getD 0

/-- category_total = sum(expenses.get(t, 0) for t in expense_types) (line 134). -/
def categoryTotal (expenses : List (String × ℚ)) (labels : List String) : ℚ :=
  (labels.map (lookupExpense expenses)).sum

/-- One bucket of the spending breakdown: amount and a percentage rounded
to one decimal (lines 135-138). -/
structure Bucket where
  amount : ℚ
  percentage : ℚ
  deriving Repr, DecidableEq

/-- The breakdown entry for one category list (lines 134-138). -/
def bucketFor (expenses : List (String × ℚ)) (labels : List String) : Bucket :=
  let category_total := categoryTotal expenses labels
  { amount := category_total
    percentage := pyRound (category_total / totalExpenses expenses * 100) 1 }

/-- _analyze_spending_patterns (lines 120-140): empty dict when the total
is zero, else one bucket per fixed category in insertion order. -/
def analyzeSpendingPatterns (expenses : List (String × ℚ)) : List (String × Bucket) :=
  if totalExpenses expenses = 0 then []
  else
    [("essential", bucketFor expenses essentialLabels),
     ("lifestyle", bucketFor expenses lifestyleLabels),
     ("financial", bucketFor expenses financialLabels)]

/-- any(goal.get('goal_type') == 'retirement' for goal in goals) (line 160). -/
def retirementPlanned (goals : List Goal) : Bool :=
  goals.any (fun g => g.goal_type == some "retirement")

/-- The goal-specific loop of _identify_priorities (lines 164-166): one
entry per goal whose timeline (default 0) is at most 5. -/
def shortTermGoalPriorities (goals : List Goal) : List String :=
  (goals.filter (fun g => decide (g.timeline.getD 0 ≤ 5))).map
    (fun g => "Short-term goal: " ++ g.goal_type.getD "Unknown")

/-- _identify_priorities (lines 142-168): the four rules evaluated in
declaration order, each appending its strings. -/
def identifyPriorities (pd : ProfileData) : List String :=
  let age := pd.age.getD 30
  let current_savings := pd.current_savings.getD 0
  let monthly_expenses := totalMonthlyExpenses pd
  let goals := pd.investment_goals.getD []
  (if current_savings < monthly_expenses * 3 then ["Build emergency fund (3-6 months expenses)"]
   else []) ++
  (if pd.current_debt.getD 0 > 0 then ["Reduce high-interest debt"] else []) ++
  (if age > 25 ∧ retirementPlanned goals = false then ["Start retirement planning"] else []) ++
  shortTermGoalPriorities goals

/-- _identify_improvement_areas (lines 170-183). -/
def identifyImprovementAreas (savings_rate debt_to_income emergency_months : ℚ) : List String :=
  (if savings_rate < 10/100 then ["Increase savings rate to at least 10%"] else []) ++
  (if debt_to_income > 30/100 then ["Reduce debt-to-income ratio below 30%"] else []) ++
  (if emergency_months < 3 then ["Build emergency fund to 3-6 months of expenses"] else [])

/-- The analysis dict returned by FinancialProfileAnalyzer.analyze
(lines 51-62). -/
structure Analysis where
  financial_health_score : ℕ
  savings_rate : ℚ
  debt_to_income_ratio : ℚ
  emergency_fund_months : ℚ
  risk_capacity_score : ℚ
  spending_breakdown : List (String × Bucket)
  financial_priorities : List String
  improvement_areas : List String
  deriving Repr, DecidableEq

/-- FinancialProfileAnalyzer.analyze (lines 27-64), with every division
already guarded exactly as in the source. -/
def analyze (pd : ProfileData) : Analysis :=
  { financial_health_score :=
      calculateFinancialHealthScore (savingsRate pd) (debtToIncome pd) (emergencyFundMonths pd)
    savings_rate := pyRound (savingsRate pd * 100) 2
    debt_to_income_ratio := pyRound (debtToIncome pd * 100) 2
    emergency_fund_months := pyRound (emergencyFundMonths pd) 1
    risk_capacity_score :=
      calculateRiskCapacity (pd.age.getD 30) (pd.dependents.getD 0)
        (pd.employment_stability.getD "moderate") (savingsRate pd)
    spending_breakdown := analyzeSpendingPatterns (monthlyExpensesOf pd)
    financial_priorities := identifyPriorities pd
    improvement_areas :=
      identifyImprovementAreas (savingsRate pd) (debtToIncome pd) (emergencyFundMonths pd) }

/-- Division that raises ZeroDivisionError on a zero denominator, as Python
division would if it were ever reached unguarded. -/
def qdivE (a b : ℚ) : Except String ℚ :=
  if b = 0 then Except.error "ZeroDivisionError" else Except.ok (a / b)

/-- _analyze_spending_patterns with every division routed through qdivE,
following the source control flow (early return on zero total). -/
def analyzeSpendingPatternsE (expenses : List (String × ℚ)) :
    Except String (List (String × Bucket)) :=
  let total := totalExpenses expenses
  if total = 0 then Except.ok []
  else do
  let re ← qdivE (categoryTotal expenses essentialLabels) total
  let rl ← qdivE (categoryTotal expenses lifestyleLabels) total
  let rf ← qdivE (categoryTotal expenses financialLabels) total
  pure
    [("essential", { amount := categoryTotal expenses essentialLabels
                     percentage := pyRound (re * 100) 1 }),
     ("lifestyle", { amount := categoryTotal expenses lifestyleLabels
                     percentage := pyRound (rl * 100) 1 }),
     ("financial", { amount := categoryTotal expenses financialLabels
                     percentage := pyRound (rf * 100) 1 })]

/-- FinancialProfileAnalyzer.analyze with every division routed through
qdivE, following the source control flow and guards line by line; the
analyzer performs no other fallible operation, so a run of this function
is Except.error exactly when the Python call would raise. -/
def analyzeE (pd : ProfileData) : Except String Analysis := do
  let monthly_income ← qdivE (annualIncome pd) 12
  let total := totalMonthlyExpenses pd
  let savings_rate ←
    if monthly_income > 0 then qdivE (monthly_income - total) monthly_income else pure 0
  let monthly_debt ← qdivE (pd.current_debt.getD 0) 12
  let debt_to_income ←
    if monthly_income > 0 then qdivE monthly_debt monthly_income else pure 0
  let emergency ←
    if total > 0 then qdivE (pd.current_savings.getD 0) total else pure 0
  let breakdown ← analyzeSpendingPatternsE (monthlyExpensesOf pd)
  pure
    { financial_health_score := calculateFinancialHealthScore savings_rate debt_to_income emergency
      savings_rate := pyRound (savings_rate * 100) 2
      debt_to_income_ratio := pyRound (debt_to_income * 100) 2
      emergency_fund_months := pyRound emergency 1
      risk_capacity_score :=
        calculateRiskCapacity (pd.age.getD 30) (pd.dependents.getD 0)
          (pd.employment_stability.getD "moderate") savings_rate
      spending_breakdown := breakdown
      financial_priorities := identifyPriorities pd
      improvement_areas := identifyImprovementAreas savings_rate debt_to_income emergency }

end FinancialProfileAnalyzer

namespace MarketDataAgent

/-- A market-conditions snapshot. The simulated content produced by
_simulate_market_data is abstracted into a single payload value injected
at each refresh (the spec leaves those values implementation-defined and
the cache logic never inspects them); last_updated is the datetime.now()
stamped at creation (financial_agents.py line 211), with time modelled
as an integer count of minutes from an injectable clock. -/
structure MarketConditions where
  payload : ℕ
  last_updated : ℤ
  deriving Repr, DecidableEq

/-- The agent's mutable cache: empty, or one entry holding the data and
the timestamp it was stored (lines 190, 215-218). -/
structure MarketCache where
  entry : Option (MarketConditions × ℤ)
  deriving Repr, DecidableEq

/-- cache_expiry = timedelta(minutes=15) (line 191). -/
def cacheExpiry : ℤ := 15

/-- _is_cache_valid (lines 222-227): false on an empty cache, else
now - timestamp < cache_expiry. -/
def isCacheValid (c : MarketCache) (now : ℤ) : Bool :=
  match c.entry with
  | none => false
  | some (_, ts) => now - ts < cacheExpiry

/-- The refresh path of MarketDataAgent.analyze (lines 200-220): build a
new MarketConditions stamped now, store it in the cache with timestamp
now, and return it. -/
def refreshMarket (now : ℤ) (fresh : ℕ) : MarketConditions × MarketCache :=
  let mc : MarketConditions := { payload := fresh, last_updated := now }
  (mc, { entry := some (mc, now) })

/-- MarketDataAgent.analyze (lines 193-220) as a state transformer: on a
valid cache return the cached data and leave the cache unchanged, else
refresh. now is the injected clock reading and fresh the injected
simulated payload for this call. -/
def marketAnalyze (c : MarketCache) (now : ℤ) (fresh : ℕ) : MarketConditions × MarketCache :=
  match c.entry with
  | some (d, ts) => if now - ts < cacheExpiry then (d, c) else refreshMarket now fresh
  | none => refreshMarket now fresh

/-- Run a sequence of analyze calls, each given by its clock reading and
injected payload, returning the values handed to the callers. -/
def runMarket : MarketCache → List (ℤ × ℕ) → List MarketConditions
  | _, [] => []
  | c, (t, f) :: rest =>
    let step := marketAnalyze c t f
    step.1 :: runMarket step.2 rest

end MarketDataAgent

namespace AzureOpenAI

/-- The JSON payload parsed from a successful chat completion in
analyze_financial_profile; each key is read with .get and a default
(azure_openai_client.py lines 84-88). -/
structure AnalysisPayload where
  summary : Option String
  insights : Option (List String)
  recommendations : Option (List String)
  confidence_score : Option ℚ
  deriving Repr, DecidableEq

/-- AIAnalysisResponse (Models.py), with the timestamp as the injected
clock reading. -/
structure AIAnalysisResponse where
  analysis_summary : String
  insights : List String
  recommendations : List String
  confidence_score : ℚ
  analysis_timestamp : ℤ
  deriving Repr, DecidableEq

/-- The fallback response built in the except branch of
analyze_financial_profile (azure_openai_client.py lines 89-94). -/
def fallbackResponse (now : ℤ) : AIAnalysisResponse :=
  { analysis_summary := "Unable to generate AI analysis at this time"
    insights := ["Manual analysis recommended"]
    recommendations := ["Consult with financial advisor"]
    confidence_score := 0
    analysis_timestamp := now }

/-- AzureOpenAIClient.analyze_financial_profile (lines 57-94). The
underlying chat call plus JSON parse is the collaborator outcome: ok with
the parsed payload, or error carrying the raised exception. The whole
body sits in a try/except that turns any error into the fallback
response, so the function is total. -/
def analyzeFinancialProfile (outcome : Except String AnalysisPayload) (now : ℤ) :
    AIAnalysisResponse :=
  match outcome with
  | Except.ok d =>
    { analysis_summary := d.summary.getD ""
      insights := d.insights.getD []
      recommendations := d.recommendations.getD []
      confidence_score := d.confidence_score.getD (8/10)
      analysis_timestamp := now }
  | Except.error _ => fallbackResponse now

end AzureOpenAI

namespace FinancialProfileAnalyzer

/-- The profile of spec scenario 1. -/
def scenario1Profile : ProfileData :=
  { annual_income := some 60000
    monthly_expenses := some [("housing", 1500), ("dining", 300)]
    current_savings := some 9000
    current_debt := some 0
    age := some 30
    dependents := some 0
    employment_stability := some "stable"
    investment_goals := some [] }

/-- The profile of spec scenario 4: one education goal with a 3-year
timeline and no retirement goal, age 30. -/
def scenario4Profile : ProfileData :=
  { age := some 30
    investment_goals := some [{ goal_type := some "education", timeline := some 3 }] }

/-- A profile carrying a negative annual income, an amount the spec says
must be non-negative. -/
def pdNegIncome : ProfileData :=
  { annual_income := some (-60000)
    monthly_expenses := some [("housing", 1500)] }

/-- The empty profile dict: every key absent. -/
def pdEmpty : ProfileData := {}

/-- A goal dict with neither a goal_type nor a timeline key. -/
def goalNoKeys : Goal := { goal_type := none, timeline := none }

/-- A profile whose single investment goal has no keys at all. -/
def pdNoTimeline : ProfileData := { investment_goals := some [goalNoKeys] }

/-- All labels belonging to some bucket of the fixed taxonomy. -/
def allBucketLabels : List String := essentialLabels ++ lifestyleLabels ++ financialLabels

/-- An expense dict with one categorized label of positive amount and one
uncategorized label of amount zero. -/
def esWeird : List (String × ℚ) := [("housing", 100), ("weird", 0)]

/-- The expense dict of scenario 1. -/
def esScenario1 : List (String × ℚ) := [("housing", 1500), ("dining", 300)]

end FinancialProfileAnalyzer

namespace FinancialProfileAnalyzer

/-- C2: on the scenario-1 profile (income 60000, expenses housing 1500 and
dining 300, savings 9000, debt 0, age 30, no dependents, stable
employment) the analyzer derives monthly income 5000, total monthly
expenses 1800, savings rate 0.64, emergency-fund months 5.0, and a
financial health score of 90 composed of a savings component of 40, a
debt component of 30 and an emergency-fund component of 20. -/
theorem scenario1_analysis :
    monthlyIncome scenario1Profile = 5000 ∧
    totalMonthlyExpenses scenario1Profile = 1800 ∧
    savingsRate scenario1Profile = 64/100 ∧
    emergencyFundMonths scenario1Profile = 5 ∧
    savingsRateComponent (savingsRate scenario1Profile) = 40 ∧
    debtComponent (debtToIncome scenario1Profile) = 30 ∧
    emergencyComponent (emergencyFundMonths scenario1Profile) = 20 ∧
    (analyze scenario1Profile).financial_health_score = 90 := by
  norm_num [analyze, monthlyIncome, annualIncome, totalMonthlyExpenses, totalExpenses,
    monthlyExpensesOf, savingsRate, debtToIncome, monthlyDebt, emergencyFundMonths,
    savingsRateComponent, debtComponent, emergencyComponent, calculateFinancialHealthScore,
    scenario1Profile]

/-- C8: on the scenario-4 profile (age 30, one education goal with a
3-year timeline, no retirement goal) the priorities list contains both
"Start retirement planning" and "Short-term goal: education", in rule
declaration order: the retirement rule fires before the short-term-goal
loop, and nothing else fires. -/
theorem scenario4_priorities :
    identifyPriorities scenario4Profile =
      ["Start retirement planning", "Short-term goal: education"] ∧
    "Start retirement planning" ∈ identifyPriorities scenario4Profile ∧
    "Short-term goal: education" ∈ identifyPriorities scenario4Profile := by
  have h : identifyPriorities scenario4Profile =
      ["Start retirement planning", "Short-term goal: education"] := by
    norm_num [identifyPriorities, scenario4Profile, totalMonthlyExpenses, totalExpenses,
      monthlyExpensesOf, retirementPlanned, shortTermGoalPriorities]
    decide
  exact ⟨h, by rw [h]; simp, by rw [h]; simp⟩

/-- Clamping with min 1 (max (1/10) x) lands in the interval [1/10, 1]
for every rational x. -/
lemma clamp_mem (x : ℚ) : 1/10 ≤ min 1 (max (1/10) x) ∧ min 1 (max (1/10) x) ≤ 1 :=
  ⟨le_min (by norm_num) (le_max_left _ _), min_le_left _ _⟩

/-- C3: for every age in [0,130], every non-negative dependents count,
every employment string and every savings rate, the risk capacity score
lies in [0.1, 1.0]; the final clamp min(1.0, max(0.1, rc)) forces this
regardless of the weighted sum, in particular it is never 0 and it caps
at 1.0 the large age factor of young ages. -/
theorem riskCapacity_bounds (age dependents : ℤ) (employment : String) (savings_rate : ℚ)
    (_h1 : 0 ≤ age) (_h2 : age ≤ 130) (_h3 : 0 ≤ dependents) :
    1/10 ≤ calculateRiskCapacity age dependents employment savings_rate ∧
    calculateRiskCapacity age dependents employment savings_rate ≤ 1 :=
  clamp_mem _

/-- Witness for C3 at age 30, no dependents, stable employment, zero
savings rate. -/
theorem riskCapacity_bounds_witness :
    (0 : ℤ) ≤ 30 ∧ (30 : ℤ) ≤ 130 ∧ (0 : ℤ) ≤ 0 ∧
    (1/10 ≤ calculateRiskCapacity 30 0 "stable" 0 ∧
     calculateRiskCapacity 30 0 "stable" 0 ≤ 1) :=
  ⟨by norm_num, by norm_num, le_refl 0,
   riskCapacity_bounds 30 0 "stable" 0 (by norm_num) (by norm_num) (le_refl 0)⟩

/-- The savings-rate tier is one of 0, 10, 20, 30, 40. -/
lemma savingsRateComponent_le (savings_rate : ℚ) :
    savingsRateComponent savings_rate ≤ 40 ∧ 10 ∣ savingsRateComponent savings_rate := by
  unfold savingsRateComponent
  split_ifs <;> norm_num

/-- The debt tier is one of 0, 10, 20, 30. -/
lemma debtComponent_le (debt_to_income : ℚ) :
    debtComponent debt_to_income ≤ 30 ∧ 10 ∣ debtComponent debt_to_income := by
  unfold debtComponent
  split_ifs <;> norm_num

/-- The emergency-fund tier is one of 0, 10, 20, 30. -/
lemma emergencyComponent_le (emergency_months : ℚ) :
    emergencyComponent emergency_months ≤ 30 ∧ 10 ∣ emergencyComponent emergency_months := by
  unfold emergencyComponent
  split_ifs <;> norm_num

/-- C9: for all inputs the financial health score is a multiple of 10,
lies in [0, 100] (it is a Nat, hence non-negative), equals the plain sum
of the three tier components so the defensive min(score, 100) clamp never
alters it, and the maximum 100 is attained (savings rate 20 percent, zero
debt, six months of emergency fund). -/
theorem healthScore_shape :
    (∀ savings_rate debt_to_income emergency_months : ℚ,
      10 ∣ calculateFinancialHealthScore savings_rate debt_to_income emergency_months ∧
      calculateFinancialHealthScore savings_rate debt_to_income emergency_months ≤ 100 ∧
      calculateFinancialHealthScore savings_rate debt_to_income emergency_months =
        savingsRateComponent savings_rate + debtComponent debt_to_income +
          emergencyComponent emergency_months) ∧
    calculateFinancialHealthScore (20/100) 0 6 = 100 := by
  constructor
  · intro savings_rate debt_to_income emergency_months
    obtain ⟨hs, hs10⟩ := savingsRateComponent_le savings_rate
    obtain ⟨hd, hd10⟩ := debtComponent_le debt_to_income
    obtain ⟨he, he10⟩ := emergencyComponent_le emergency_months
    have hsum : savingsRateComponent savings_rate + debtComponent debt_to_income +
        emergencyComponent emergency_months ≤ 100 := by omega
    have heq : calculateFinancialHealthScore savings_rate debt_to_income emergency_months =
        savingsRateComponent savings_rate + debtComponent debt_to_income +
          emergencyComponent emergency_months := by
      unfold calculateFinancialHealthScore
      omega
    refine ⟨?_, ?_, heq⟩
    · rw [heq]
      exact dvd_add (dvd_add hs10 hd10) he10
    · rw [heq]
      exact hsum
  · norm_num [calculateFinancialHealthScore, savingsRateComponent, debtComponent,
      emergencyComponent]

end FinancialProfileAnalyzer

namespace AzureOpenAI

/-- C7: for every request and every failure of the underlying AI call,
analyze_financial_profile returns the fixed fallback response (summary
"Unable to generate AI analysis at this time", confidence 0.0) instead of
raising; the model is a total function into AIAnalysisResponse, so the AI
step can never fail the overall analysis. -/
theorem aiFailure_fallback (e : String) (now : ℤ) :
    analyzeFinancialProfile (Except.error e) now = fallbackResponse now ∧
    (analyzeFinancialProfile (Except.error e) now).confidence_score = 0 ∧
    (analyzeFinancialProfile (Except.error e) now).analysis_summary =
      "Unable to generate AI analysis at this time" :=
  ⟨rfl, rfl, rfl⟩

end AzureOpenAI

namespace FinancialProfileAnalyzer

/-- C10: a goal without a timeline key is read as timeline 0 by the
priority identifier, so it always yields a short-term-goal entry, labelled
Unknown when the goal_type key is also absent. -/
theorem missingTimeline_shortTerm (pd : ProfileData) (g : Goal)
    (hg : g ∈ pd.investment_goals.getD []) (ht : g.timeline = none) :
    g.timeline.getD 0 = 0 ∧
    ("Short-term goal: " ++ g.goal_type.getD "Unknown") ∈ identifyPriorities pd ∧
    (g.goal_type = none → "Short-term goal: Unknown" ∈ identifyPriorities pd) := by
  have hp : g ∈ (pd.investment_goals.getD []).filter (fun g => decide (g.timeline.getD 0 ≤ 5)) := by
    rw [List.mem_filter]
    refine ⟨hg, ?_⟩
    rw [ht]
    norm_num
  have hmem : ("Short-term goal: " ++ g.goal_type.getD "Unknown") ∈
      shortTermGoalPriorities (pd.investment_goals.getD []) :=
    List.mem_map_of_mem _ hp
  have hall : ("Short-term goal: " ++ g.goal_type.getD "Unknown") ∈ identifyPriorities pd := by
    simp only [identifyPriorities]
    exact List.mem_append_right _ hmem
  refine ⟨by rw [ht]; rfl, hall, fun hgt => ?_⟩
  have hs : "Short-term goal: " ++ ((none : Option String).getD "Unknown") =
      "Short-term goal: Unknown" := rfl
  rw [hgt, hs] at hall
  exact hall

/-- Witness for C10: a profile holding one goal dict with no keys at all
gets the priority "Short-term goal: Unknown". -/
theorem missingTimeline_shortTerm_witness :
    goalNoKeys ∈ pdNoTimeline.investment_goals.getD [] ∧ goalNoKeys.timeline = none ∧
    (goalNoKeys.timeline.getD 0 = 0 ∧
     ("Short-term goal: " ++ goalNoKeys.goal_type.getD "Unknown") ∈
       identifyPriorities pdNoTimeline ∧
     (goalNoKeys.goal_type = none → "Short-term goal: Unknown" ∈
       identifyPriorities pdNoTimeline)) :=
  ⟨by simp [pdNoTimeline], rfl,
   missingTimeline_shortTerm pdNoTimeline goalNoKeys (by simp [pdNoTimeline]) rfl⟩

end FinancialProfileAnalyzer

namespace MarketDataAgent

/-- C6 counterexample input: three calls at minutes 0, 14 and 16 against
an initially empty cache, with distinct injected payloads. -/
theorem marketCache_counterexample :
    (16 : ℤ) - 14 < cacheExpiry ∧
    (runMarket { entry := none } [(0, 100), (14, 200), (16, 300)])[1]? ≠
      (runMarket { entry := none } [(0, 100), (14, 200), (16, 300)])[2]? := by
  constructor
  · norm_num [cacheExpiry]
  · norm_num [runMarket, marketAnalyze, refreshMarket, cacheExpiry]

/-- C6 (amended): with an injectable clock, any two calls each made less
than 15 minutes after the current cache entry's own timestamp return that
same cached value and leave the cache slot unchanged (no new value
created); a call at or after expiry of the entry returns a freshly built
value whose timestamp is that call's time, and stores it. -/
theorem marketCache_ttl (d : MarketConditions) (ts t1 t2 t3 : ℤ) (f1 f2 f3 : ℕ)
    (h1 : t1 - ts < cacheExpiry) (h2 : t2 - ts < cacheExpiry)
    (h3 : cacheExpiry ≤ t3 - ts) :
    marketAnalyze { entry := some (d, ts) } t1 f1 = (d, { entry := some (d, ts) }) ∧
    marketAnalyze { entry := some (d, ts) } t2 f2 = (d, { entry := some (d, ts) }) ∧
    (marketAnalyze { entry := some (d, ts) } t1 f1).1 =
      (marketAnalyze { entry := some (d, ts) } t2 f2).1 ∧
    (marketAnalyze { entry := some (d, ts) } t3 f3).1.last_updated = t3 ∧
    (marketAnalyze { entry := some (d, ts) } t3 f3).2 =
      { entry := some ({ payload := f3, last_updated := t3 }, t3) } := by
  have hv3 : ¬ (t3 - ts < cacheExpiry) := not_lt.mpr h3
  refine ⟨?_, ?_, ?_, ?_, ?_⟩ <;>
    simp [marketAnalyze, refreshMarket, h1, h2, hv3]

/-- Witness for C6 (amended): entry stamped at minute 0, hits at minutes
1 and 14, refresh at minute 15. -/
theorem marketCache_ttl_witness :
    (1 : ℤ) - 0 < cacheExpiry ∧ (14 : ℤ) - 0 < cacheExpiry ∧ cacheExpiry ≤ (15 : ℤ) - 0 ∧
    (marketAnalyze { entry := some ({ payload := 7, last_updated := 0 }, 0) } 1 8 =
      ({ payload := 7, last_updated := 0 },
       { entry := some ({ payload := 7, last_updated := 0 }, 0) }) ∧
     marketAnalyze { entry := some ({ payload := 7, last_updated := 0 }, 0) } 14 9 =
      ({ payload := 7, last_updated := 0 },
       { entry := some ({ payload := 7, last_updated := 0 }, 0) }) ∧
     (marketAnalyze { entry := some ({ payload := 7, last_updated := 0 }, 0) } 1 8).1 =
       (marketAnalyze { entry := some ({ payload := 7, last_updated := 0 }, 0) } 14 9).1 ∧
     (marketAnalyze { entry := some ({ payload := 7, last_updated := 0 }, 0) } 15 10).1.last_updated
       = 15 ∧
     (marketAnalyze { entry := some ({ payload := 7, last_updated := 0 }, 0) } 15 10).2 =
       { entry := some ({ payload := 10, last_updated := 15 }, 15) }) :=
  ⟨by norm_num [cacheExpiry], by norm_num [cacheExpiry], by norm_num [cacheExpiry],
   marketCache_ttl { payload := 7, last_updated := 0 } 0 1 14 15 8 9 10
     (by norm_num [cacheExpiry]) (by norm_num [cacheExpiry]) (by norm_num [cacheExpiry])⟩

end MarketDataAgent

namespace FinancialProfileAnalyzer

/-- Binding a successful Except value just applies the continuation. -/
@[simp] lemma except_bind_ok {α β : Type} (a : α) (f : α → Except String β) :
    (Except.ok a : Except String α) >>= f = f a := rfl

/-- Pure in the Except monad is Except.ok. -/
@[simp] lemma except_pure_eq {α : Type} (a : α) :
    (pure a : Except String α) = Except.ok a := rfl

/-- Checked division succeeds on every nonzero denominator. -/
lemma qdivE_ok (a b : ℚ) (h : b ≠ 0) : qdivE a b = Except.ok (a / b) := by
  simp [qdivE, h]

/-- The categorizer with checked division never hits a zero denominator:
it agrees with the plain categorizer on every input. -/
lemma analyzeSpendingPatternsE_eq (es : List (String × ℚ)) :
    analyzeSpendingPatternsE es = Except.ok (analyzeSpendingPatterns es) := by
  by_cases h : totalExpenses es = 0
  · simp [analyzeSpendingPatternsE, analyzeSpendingPatterns, h]
  · simp [analyzeSpendingPatternsE, analyzeSpendingPatterns, h, qdivE_ok, bucketFor]

/-- The analyzer with checked division never hits a zero denominator: it
agrees with the plain analyzer on every input. -/
lemma analyzeE_eq_ok (pd : ProfileData) : analyzeE pd = Except.ok (analyze pd) := by
  have h12 : (12 : ℚ) ≠ 0 := by norm_num
  have hbd := analyzeSpendingPatternsE_eq (monthlyExpensesOf pd)
  by_cases hmi : monthlyIncome pd > 0
  · have hmi' : annualIncome pd / 12 > 0 := hmi
    by_cases hte : totalMonthlyExpenses pd > 0
    · simp [analyzeE, analyze, savingsRate, debtToIncome, emergencyFundMonths, monthlyDebt,
        monthlyIncome, qdivE_ok, h12, hmi', hmi'.ne', hte, hte.ne', hbd]
    · simp [analyzeE, analyze, savingsRate, debtToIncome, emergencyFundMonths, monthlyDebt,
        monthlyIncome, qdivE_ok, h12, hmi', hmi'.ne', hte, hbd]
  · have hmi' : ¬ annualIncome pd / 12 > 0 := hmi
    by_cases hte : totalMonthlyExpenses pd > 0
    · simp [analyzeE, analyze, savingsRate, debtToIncome, emergencyFundMonths, monthlyDebt,
        monthlyIncome, qdivE_ok, h12, hmi', hte, hte.ne', hbd]
    · simp [analyzeE, analyze, savingsRate, debtToIncome, emergencyFundMonths, monthlyDebt,
        monthlyIncome, qdivE_ok, h12, hmi', hte, hbd]

/-- C1 counterexample: on a profile whose annual_income is the negative
amount -60000, the analyzer does not report InvalidInput and does not
abort; the call succeeds and returns the fully computed analysis. -/
theorem invalidInput_not_reported :
    annualIncome pdNegIncome < 0 ∧
    analyzeE pdNegIncome = Except.ok (analyze pdNegIncome) :=
  ⟨by norm_num [annualIncome, pdNegIncome], analyzeE_eq_ok pdNegIncome⟩

/-- C1 (amended): the analyzer performs no input validation at all; every
call, negative or non-numeric-shaped amounts included, runs to completion
and returns the fully populated deterministic analysis, and no InvalidInput
error exists in the code. -/
theorem analyze_never_fails (pd : ProfileData) : analyzeE pd = Except.ok (analyze pd) :=
  analyzeE_eq_ok pd

/-- C4: every zero-denominator case is guarded: non-positive monthly
income forces savings rate and debt-to-income to 0, non-positive total
expenses forces emergency-fund months to 0, a zero expense total makes
the breakdown empty, and neither the analyzer nor the categorizer can
raise a division-by-zero error on any input. -/
theorem division_guards (pd : ProfileData) :
    (monthlyIncome pd ≤ 0 → savingsRate pd = 0 ∧ debtToIncome pd = 0) ∧
    (totalMonthlyExpenses pd ≤ 0 → emergencyFundMonths pd = 0) ∧
    (totalExpenses (monthlyExpensesOf pd) = 0 →
      analyzeSpendingPatterns (monthlyExpensesOf pd) = []) ∧
    (∀ es : List (String × ℚ),
      analyzeSpendingPatternsE es = Except.ok (analyzeSpendingPatterns es)) ∧
    analyzeE pd = Except.ok (analyze pd) := by
  refine ⟨fun h => ?_, fun h => ?_, fun h => ?_, analyzeSpendingPatternsE_eq, analyzeE_eq_ok pd⟩
  · exact ⟨by simp [savingsRate, not_lt.mpr h], by simp [debtToIncome, not_lt.mpr h]⟩
  · simp [emergencyFundMonths, not_lt.mpr h]
  · simp [analyzeSpendingPatterns, h]

/-- Witness for C4 on the all-defaults profile: zero income and an empty
expense dict, no error raised. -/
theorem division_guards_witness :
    monthlyIncome pdEmpty ≤ 0 ∧ totalMonthlyExpenses pdEmpty ≤ 0 ∧
    totalExpenses (monthlyExpensesOf pdEmpty) = 0 ∧
    (savingsRate pdEmpty = 0 ∧ debtToIncome pdEmpty = 0) ∧
    emergencyFundMonths pdEmpty = 0 ∧
    analyzeSpendingPatterns (monthlyExpensesOf pdEmpty) = [] ∧
    analyzeSpendingPatternsE (monthlyExpensesOf pdEmpty) =
      Except.ok (analyzeSpendingPatterns (monthlyExpensesOf pdEmpty)) ∧
    analyzeE pdEmpty = Except.ok (analyze pdEmpty) := by
  have h := division_guards pdEmpty
  have h1 : monthlyIncome pdEmpty ≤ 0 := by
    norm_num [monthlyIncome, annualIncome, pdEmpty]
  have h2 : totalMonthlyExpenses pdEmpty ≤ 0 := by
    norm_num [totalMonthlyExpenses, totalExpenses, monthlyExpensesOf, pdEmpty]
  have h3 : totalExpenses (monthlyExpensesOf pdEmpty) = 0 := by
    norm_num [totalExpenses, monthlyExpensesOf, pdEmpty]
  exact ⟨h1, h2, h3, h.1 h1, h.2.1 h2, h.2.2.1 h3, h.2.2.2.1 _, h.2.2.2.2⟩

/-- Splitting a value sum along a Boolean predicate on the entries. -/
lemma sum_filter_add_sum_filter_not (l : List (String × ℚ)) (p : String × ℚ → Bool) :
    ((l.filter p).map Prod.snd).sum + ((l.filter (fun a => !(p a))).map Prod.snd).sum =
      (l.map Prod.snd).sum := by
  induction l with
  | nil => simp
  | cons a t ih =>
    by_cases h : p a = true
    · simp only [List.filter_cons, h, Bool.not_true, List.map_cons, List.sum_cons, if_true,
        if_false, Bool.false_eq_true]
      linarith
    · simp only [List.filter_cons, h, List.map_cons, List.sum_cons, if_false,
        Bool.not_eq_true] at ih ⊢
      simp only [Bool.not_eq_true] at h
      simp only [h, Bool.not_false, if_true, if_false, Bool.false_eq_true, List.map_cons,
        List.sum_cons]
      linarith

/-- Splitting a value sum over a disjunction of two mutually exclusive
Boolean predicates. -/
lemma sum_filter_or (l : List (String × ℚ)) (p q : String × ℚ → Bool)
    (hpq : ∀ a, ¬(p a = true ∧ q a = true)) :
    ((l.filter (fun a => p a || q a)).map Prod.snd).sum =
      ((l.filter p).map Prod.snd).sum + ((l.filter q).map Prod.snd).sum := by
  induction l with
  | nil => simp
  | cons a t ih =>
    by_cases hp : p a = true
    · have hq : q a = false := by
        by_cases h : q a = true
        · exact absurd ⟨hp, h⟩ (hpq a)
        · simpa using h
      simp only [List.filter_cons, hp, hq, Bool.true_or, if_true, if_false, Bool.false_eq_true,
        List.map_cons, List.sum_cons]
      linarith
    · simp only [Bool.not_eq_true] at hp
      by_cases hq : q a = true
      · simp only [List.filter_cons, hp, hq, Bool.false_or, if_true, if_false,
          Bool.false_eq_true, List.map_cons, List.sum_cons]
        linarith
      · simp only [Bool.not_eq_true] at hq
        simp only [List.filter_cons, hp, hq, Bool.false_or, if_false, Bool.false_eq_true]
        exact ih

/-- With unique keys, a dict lookup with default 0 equals the value sum
over the entries carrying that key. -/
lemma lookup_eq_sum_filter (es : List (String × ℚ)) (l : String)
    (h : (es.map Prod.fst).Nodup) :
    lookupExpense es l = ((es.filter (fun e => e.1 == l)).map Prod.snd).sum := by
  induction es with
  | nil => simp [lookupExpense]
  | cons a t ih =>
    obtain ⟨k, v⟩ := a
    simp only [List.map_cons, List.nodup_cons] at h
    obtain ⟨hk, ht⟩ := h
    by_cases hkl : k = l
    · subst hkl
      have hfilter : t.filter (fun e => e.1 == k) = [] := by
        rw [List.filter_eq_nil_iff]
        intro e he hbeq
        exact hk (by
          have : e.1 = k := by simpa using hbeq
          rw [← this]
          exact List.mem_map_of_mem Prod.fst he)
      simp [lookupExpense, List.lookup, hfilter]
    · have hlk : (l == k) = false := beq_eq_false_iff_ne.mpr (fun h => hkl h.symm)
      have hkl2 : (k == l) = false := beq_eq_false_iff_ne.mpr hkl
      simp only [lookupExpense, List.lookup, hlk, List.filter_cons, hkl2, if_false,
        Bool.false_eq_true]
      exact ih ht

/-- With distinct labels and unique keys, summing lookups over a label
list equals the value sum over the entries whose key appears in it. -/
lemma sum_lookup_contains (L : List String) (hL : L.Nodup) (es : List (String × ℚ))
    (hes : (es.map Prod.fst).Nodup) :
    (L.map (lookupExpense es)).sum =
      ((es.filter (fun e => L.contains e.1)).map Prod.snd).sum := by
  induction L with
  | nil => simp
  | cons l L2 ih =>
    simp only [List.nodup_cons] at hL
    obtain ⟨hlL, hL2⟩ := hL
    have hdisj : ∀ e : String × ℚ, ¬((e.1 == l) = true ∧ (L2.contains e.1) = true) := by
      rintro e ⟨h1, h2⟩
      have he1 : e.1 = l := by simpa using h1
      rw [he1] at h2
      exact hlL (by simpa using h2)
    have hpred : (fun e : String × ℚ => (l :: L2).contains e.1) =
        (fun e : String × ℚ => (e.1 == l) || L2.contains e.1) := by
      funext e
      simp only [List.contains_cons]
    rw [List.map_cons, List.sum_cons, lookup_eq_sum_filter es l hes, ih hL2, hpred,
      sum_filter_or es _ _ hdisj]

/-- A sum of non-negative rationals is zero exactly when every term is. -/
lemma sum_eq_zero_iff_nonneg (l : List ℚ) (h : ∀ x ∈ l, 0 ≤ x) :
    l.sum = 0 ↔ ∀ x ∈ l, x = 0 := by
  induction l with
  | nil => simp
  | cons a t ih =>
    have ha := h a (List.mem_cons_self a t)
    have ht : ∀ x ∈ t, 0 ≤ x := fun x hx => h x (List.mem_cons_of_mem _ hx)
    have hts : 0 ≤ t.sum := List.sum_nonneg ht
    simp only [List.sum_cons, List.mem_cons]
    constructor
    · intro h0
      have ha0 : a = 0 := by linarith
      have ht0 : t.sum = 0 := by linarith
      intro x hx
      rcases hx with rfl | hx
      · exact ha0
      · exact ((ih ht).mp ht0) x hx
    · intro hall
      rw [hall a (Or.inl rfl), (ih ht).mpr (fun x hx => hall x (Or.inr hx))]
      norm_num

/-- C5 counterexample: on the expense dict housing 100, weird 0 (amounts
non-negative, total positive) the bucket amounts sum to the full input
total although the label weird belongs to no bucket, so equality does not
imply that every label is categorized. -/
theorem spendingBreakdown_counterexample :
    (esWeird.map Prod.fst).Nodup ∧ (∀ e ∈ esWeird, 0 ≤ e.2) ∧ 0 < totalExpenses esWeird ∧
    ((analyzeSpendingPatterns esWeird).map (fun kv => kv.2.amount)).sum =
      totalExpenses esWeird ∧
    ("weird", (0 : ℚ)) ∈ esWeird ∧ allBucketLabels.contains "weird" = false := by
  refine ⟨by decide, ?_, ?_, ?_, ?_, by decide⟩
  · intro e he
    simp only [esWeird, List.mem_cons, List.not_mem_nil, or_false] at he
    rcases he with rfl | rfl <;> norm_num
  · norm_num [totalExpenses, esWeird]
  · simp +decide [analyzeSpendingPatterns, totalExpenses, esWeird, bucketFor, categoryTotal,
      lookupExpense, essentialLabels, lifestyleLabels, financialLabels, List.lookup]
  · simp [esWeird]

/-- C5 (amended): for every expense dict with unique labels, non-negative
amounts and positive total, the bucket amounts sum to at most the input
total, with equality exactly when every label carrying a nonzero amount
belongs to one of the three buckets (a zero amount under an uncategorized
label does not break equality), and each bucket's percentage equals
round(amount/total*100, 1). -/
theorem spendingBreakdown_sum (es : List (String × ℚ))
    (hkeys : (es.map Prod.fst).Nodup)
    (hnn : ∀ e ∈ es, 0 ≤ e.2) (hpos : 0 < totalExpenses es) :
    ((analyzeSpendingPatterns es).map (fun kv => kv.2.amount)).sum ≤ totalExpenses es ∧
    (((analyzeSpendingPatterns es).map (fun kv => kv.2.amount)).sum = totalExpenses es ↔
      ∀ e ∈ es, e.2 ≠ 0 → allBucketLabels.contains e.1 = true) ∧
    (∀ b ∈ analyzeSpendingPatterns es,
      b.2.percentage = pyRound (b.2.amount / totalExpenses es * 100) 1) := by
  have hne : totalExpenses es ≠ 0 := ne_of_gt hpos
  have hts : (es.map Prod.snd).sum = totalExpenses es := rfl
  have hamounts : ((analyzeSpendingPatterns es).map (fun kv => kv.2.amount)).sum =
      (allBucketLabels.map (lookupExpense es)).sum := by
    simp only [analyzeSpendingPatterns, hne, if_false, List.map_cons, List.map_nil,
      List.sum_cons, List.sum_nil, bucketFor, allBucketLabels, categoryTotal,
      List.map_append, List.sum_append]
    ring
  have hnodup : allBucketLabels.Nodup := by decide
  have hlk := sum_lookup_contains allBucketLabels hnodup es hkeys
  have hsplit := sum_filter_add_sum_filter_not es (fun e => allBucketLabels.contains e.1)
  have hUnn : ∀ x ∈ (es.filter (fun e => !(allBucketLabels.contains e.1))).map Prod.snd,
      0 ≤ x := by
    intro x hx
    rw [List.mem_map] at hx
    obtain ⟨e, he, rfl⟩ := hx
    exact hnn e (List.mem_of_mem_filter he)
  have hU : 0 ≤ ((es.filter (fun e => !(allBucketLabels.contains e.1))).map Prod.snd).sum :=
    List.sum_nonneg hUnn
  rw [hamounts, hlk]
  refine ⟨by linarith, ?_, ?_⟩
  · have hiff1 : ((es.filter (fun e => allBucketLabels.contains e.1)).map Prod.snd).sum =
        totalExpenses es ↔
        ((es.filter (fun e => !(allBucketLabels.contains e.1))).map Prod.snd).sum = 0 := by
      constructor <;> intro h <;> linarith
    rw [hiff1, sum_eq_zero_iff_nonneg _ hUnn]
    constructor
    · intro h e he hez
      by_cases hb : allBucketLabels.contains e.1 = true
      · exact hb
      · refine absurd ?_ hez
        refine h e.2 ?_
        rw [List.mem_map]
        exact ⟨e, List.mem_filter.mpr ⟨he, by simpa using hb⟩, rfl⟩
    · intro h x hx
      rw [List.mem_map] at hx
      obtain ⟨e, he, rfl⟩ := hx
      rw [List.mem_filter] at he
      obtain ⟨he1, he2⟩ := he
      by_cases hz : e.2 = 0
      · exact hz
      · exact absurd (h e he1 hz) (by simpa using he2)
  · intro b hb
    simp only [analyzeSpendingPatterns, hne, if_false, List.mem_cons, List.not_mem_nil,
      or_false] at hb
    rcases hb with rfl | rfl | rfl <;> rfl

/-- Witness for C5 (amended) on the scenario-1 expense dict. -/
theorem spendingBreakdown_sum_witness :
    (esScenario1.map Prod.fst).Nodup ∧ (∀ e ∈ esScenario1, 0 ≤ e.2) ∧
    0 < totalExpenses esScenario1 ∧
    (((analyzeSpendingPatterns esScenario1).map (fun kv => kv.2.amount)).sum ≤
       totalExpenses esScenario1 ∧
     (((analyzeSpendingPatterns esScenario1).map (fun kv => kv.2.amount)).sum =
        totalExpenses esScenario1 ↔
       ∀ e ∈ esScenario1, e.2 ≠ 0 → allBucketLabels.contains e.1 = true) ∧
     (∀ b ∈ analyzeSpendingPatterns esScenario1,
       b.2.percentage = pyRound (b.2.amount / totalExpenses esScenario1 * 100) 1)) := by
  have h1 : (esScenario1.map Prod.fst).Nodup := by decide
  have h2 : ∀ e ∈ esScenario1, 0 ≤ e.2 := by
    intro e he
    simp only [esScenario1, List.mem_cons, List.not_mem_nil, or_false] at he
    rcases he with rfl | rfl <;> norm_num
  have h3 : 0 < totalExpenses esScenario1 := by norm_num [totalExpenses, esScenario1]
  exact ⟨h1, h2, h3, spendingBreakdown_sum esScenario1 h1 h2 h3⟩

end FinancialProfileAnalyzer

end FinPlan
